import Mathlib

/-!
Shallow embedding of the pinpoint-go-agent transport/telemetry core
(grpc channel layer, wire encoders, stats aggregator, active-span
registry, backoff and stream-retry loops), together with theorems
settling the spec claims.

Conventions of the embedding:
* Go `int32`/`int64` values are modelled as `Int`; where Go performs a
  narrowing conversion `int32(x)` we apply `int32ofInt` explicitly.
* Go `time.Time` values are modelled as `Int` nanoseconds since epoch
  (the source only ever observes them through `UnixNano()` and
  `Sub(...).Seconds()`).
* Go `float64` arithmetic is modelled over `ℚ`; every concrete float
  computation in the modelled code paths (`backOffSleep`,
  `Duration.Seconds`) is exact at the magnitudes the source uses, so the
  rational model is faithful.
* Go integer division panics on a zero divisor and truncates toward
  zero; it is modelled by `goDiv` returning `Option Int` (`none` is the
  panic).
* Stateful Go code that mutates its argument in place (the span
  encoders append an annotation to the span they encode) is modelled by
  explicit state passing: the function returns the mutated value next
  to its result.
* A nilable gRPC stream handle is modelled as `Option`, `none` being
  the nil handle.
-/

/-- Go conversion `int32(x)`: reduce modulo 2^32 into [-2^31, 2^31). -/
def int32ofInt (n : Int) : Int := (n + 2 ^ 31) % 2 ^ 32 - 2 ^ 31

/-- Go integer division: truncates toward zero, panics (`none`) when the
divisor is zero. -/
def goDiv (a b : Int) : Option Int := if b = 0 then none else some (a.tdiv b)

/-- Go conversion `int64(x)` from a float: truncation toward zero,
modelled on the exact rational value. -/
def ratTrunc (q : ℚ) : Int := q.num.tdiv (q.den : Int)

/-- `time.Duration.Seconds()`: nanoseconds to (exact rational) seconds. -/
def nsToSeconds (ns : Int) : ℚ := (ns : ℚ) / 1000000000

/-- Helper `toMilliseconds` used by the span encoders (defined in a part
of the repository outside the given sources). Modelled from the spec:
durations are reported in milliseconds, so this truncates a nanosecond
`time.Duration` to milliseconds. -/
def toMilliseconds (d : Int) : Int := d.tdiv 1000000

/-- `time.Time.UnixNano() / int64(time.Millisecond)`. -/
def unixMilli (t : Int) : Int := t.tdiv 1000000

/-- The gRPC status codes the modelled code produces. -/
inductive GrpcCode where
  | Unavailable
  deriving DecidableEq, Repr

/-- A `status.Errorf(code, msg)` error value. -/
structure GrpcError where
  code : GrpcCode
  msg : String
  deriving DecidableEq, Repr

/-! ## Annotation and span domain model

`tracer.go` declares the `Annotation` interface; the concrete list-backed
implementation lives outside the given sources.  Modelled from the spec:
an annotation list is an ordered list of typed key/value entries, append
preserves insertion order ("Order of insertion is preserved and is
semantically significant"). -/

/-- One typed annotation value (the spec's tagged union). -/
inductive PAnnotationValue where
  | intVal (i : Int)
  | stringVal (s : String)
  | stringString (s1 s2 : String)
  | intStringString (i : Int) (s1 s2 : String)
  | longIntIntByteByteString (l : Int) (i1 i2 b1 b2 : Int) (s : String)
  deriving DecidableEq, Repr

/-- A wire annotation entry: numeric key plus typed value. -/
structure PAnnotation where
  key : Int
  value : PAnnotationValue
  deriving DecidableEq, Repr

/-- The concrete annotation holder: its `list` field is read by the
encoders (`span.annotations.list`). -/
structure annotation where
  list : List PAnnotation
  deriving DecidableEq, Repr

/-- Modelled from the spec: `Annotation.AppendString` appends a
string-valued entry, preserving insertion order. -/
def annotation.AppendString (a : annotation) (key : Int) (s : String) : annotation :=
  { list := a.list ++ [⟨key, .stringVal s⟩] }

/-- `TransactionId` from tracer.go. -/
structure TransactionId where
  AgentId : String
  StartTime : Int
  Sequence : Int
  deriving DecidableEq, Repr

/-- The internal `spanEvent` record, with exactly the fields the encoder
`makePSpanEvent` reads (the struct itself is declared outside the given
sources; field names and types are taken from their uses in the
encoder). -/
structure spanEvent where
  sequence : Int
  depth : Int
  startElapsed : Int
  duration : Int
  serviceType : Int
  apiId : Int
  operationName : String
  annotations : annotation
  errorFuncId : Int
  errorString : String
  nextSpanId : Int
  endPoint : String
  destinationId : String
  asyncId : Int
  deriving DecidableEq, Repr

/-- The internal `span` record, with exactly the fields the encoders
`makePSpan` / `makePSpanChunk` read.  `applicationType` stands for
`span.agent.Config().ApplicationType`. -/
structure span where
  txId : TransactionId
  spanId : Int
  parentSpanId : Int
  serviceType : Int
  startTime : Int
  duration : Int
  rpcName : String
  endPoint : String
  remoteAddr : String
  flags : Int
  err : Int
  operationName : String
  annotations : annotation
  spanEvents : List spanEvent
  apiId : Int
  parentAppName : String
  parentAppType : Int
  acceptorHost : String
  asyncId : Int
  asyncSequence : Int
  loggingInfo : Int
  applicationType : Int
  deriving DecidableEq, Repr

/-! ## Span wire messages (protobuf model) -/

structure PTransactionId where
  agentId : String
  agentStartTime : Int
  sequence : Int
  deriving DecidableEq, Repr

structure PIntStringValue where
  intValue : Int
  stringValue : Option String
  deriving DecidableEq, Repr

structure PMessageEvent where
  nextSpanId : Int
  endPoint : String
  destinationId : String
  deriving DecidableEq, Repr

inductive PNextEvent where
  | messageEvent (e : PMessageEvent)
  deriving DecidableEq, Repr

structure PSpanEvent where
  sequence : Int
  depth : Int
  startElapsed : Int
  endElapsed : Int
  serviceType : Int
  annotation : List PAnnotation
  apiId : Int
  exceptionInfo : Option PIntStringValue
  nextEvent : Option PNextEvent
  asyncEvent : Int
  deriving DecidableEq, Repr

structure PParentInfo where
  parentApplicationName : String
  parentApplicationType : Int
  acceptorHost : String
  deriving DecidableEq, Repr

structure PAcceptEvent where
  rpc : String
  endPoint : String
  remoteAddr : String
  parentInfo : Option PParentInfo
  deriving DecidableEq, Repr

structure PSpan where
  version : Int
  transactionId : PTransactionId
  spanId : Int
  parentSpanId : Int
  startTime : Int
  elapsed : Int
  serviceType : Int
  acceptEvent : PAcceptEvent
  annotation : List PAnnotation
  flag : Int
  spanEvent : List PSpanEvent
  err : Int
  applicationServiceType : Int
  loggingTransactionInfo : Int
  apiId : Int
  deriving DecidableEq, Repr

structure PLocalAsyncId where
  asyncId : Int
  sequence : Int
  deriving DecidableEq, Repr

structure PSpanChunk where
  version : Int
  transactionId : PTransactionId
  spanId : Int
  keyTime : Int
  endPoint : String
  spanEvent : List PSpanEvent
  applicationServiceType : Int
  localAsyncId : PLocalAsyncId
  deriving DecidableEq, Repr

/-- `PSpanMessage`: the discriminated span wire message (oneof root span
/ span chunk). -/
inductive PSpanMessage where
  | span (s : PSpan)
  | spanChunk (c : PSpanChunk)
  deriving DecidableEq, Repr

/-- `makePSpanEvent`.  The source mutates the event in place when
`event.apiId == 0 && event.operationName != ""` (appending the
operation-name annotation before reading `event.annotations.list`); the
model returns the built wire event next to the (possibly mutated)
event. -/
def makePSpanEvent (event0 : spanEvent) : PSpanEvent × spanEvent :=
  let event :=
    if event0.apiId = 0 ∧ event0.operationName ≠ "" then
      { event0 with annotations := event0.annotations.AppendString 12 event0.operationName }
    else event0
  let aSpanEvent : PSpanEvent :=
    { sequence := event.sequence
      depth := event.depth
      startElapsed := int32ofInt (toMilliseconds event.startElapsed)
      endElapsed := int32ofInt (toMilliseconds event.duration)
      serviceType := event.serviceType
      annotation := event.annotations.list
      apiId := event.apiId
      exceptionInfo :=
        if event.errorString ≠ "" then
          some ⟨event.errorFuncId, some event.errorString⟩
        else none
      nextEvent :=
        if event.destinationId ≠ "" then
          some (.messageEvent ⟨event.nextSpanId, event.endPoint, event.destinationId⟩)
        else none
      asyncEvent := event.asyncId }
  (aSpanEvent, event)

/-- `makePSpan`: encode a root span.  The source first appends the
operation-name annotation (key 12) to the span's own annotation list,
then encodes each span event (mutating events with a zero apiId and a
non-empty operation name); the model returns the wire message next to
the mutated span. -/
def makePSpan (sp : span) : PSpanMessage × span :=
  let anns := sp.annotations.AppendString 12 sp.operationName
  let encoded := sp.spanEvents.map makePSpanEvent
  let spanEventList := encoded.map Prod.fst
  let sp' := { sp with annotations := anns, spanEvents := encoded.map Prod.snd }
  let gspan : PSpan :=
    { version := 1
      transactionId := ⟨sp.txId.AgentId, sp.txId.StartTime, sp.txId.Sequence⟩
      spanId := sp.spanId
      parentSpanId := sp.parentSpanId
      startTime := unixMilli sp.startTime
      elapsed := int32ofInt (toMilliseconds sp.duration)
      serviceType := sp.serviceType
      acceptEvent :=
        { rpc := sp.rpcName
          endPoint := sp.endPoint
          remoteAddr := sp.remoteAddr
          parentInfo :=
            if sp.parentAppName ≠ "" then
              some ⟨sp.parentAppName, int32ofInt sp.parentAppType, sp.acceptorHost⟩
            else none }
      annotation := anns.list
      flag := int32ofInt sp.flags
      spanEvent := spanEventList
      err := int32ofInt sp.err
      applicationServiceType := sp.applicationType
      loggingTransactionInfo := sp.loggingInfo
      apiId := if sp.apiId > 0 then sp.apiId else 0 }
  (PSpanMessage.span gspan, sp')

/-- `makePSpanChunk`: encode a span chunk.  Unlike `makePSpan` it does
not touch the span's own annotation list, but encoding the events still
mutates them. -/
def makePSpanChunk (sp : span) : PSpanMessage × span :=
  let encoded := sp.spanEvents.map makePSpanEvent
  let spanEventList := encoded.map Prod.fst
  let sp' := { sp with spanEvents := encoded.map Prod.snd }
  let gchunk : PSpanChunk :=
    { version := 1
      transactionId := ⟨sp.txId.AgentId, sp.txId.StartTime, sp.txId.Sequence⟩
      spanId := sp.spanId
      keyTime := unixMilli sp.startTime
      endPoint := sp.endPoint
      spanEvent := spanEventList
      applicationServiceType := sp.applicationType
      localAsyncId := ⟨sp.asyncId, sp.asyncSequence⟩ }
  (PSpanMessage.spanChunk gchunk, sp')

/-- `spanStream.sendSpan`: fail fast with `Unavailable` on a nil stream
handle, otherwise select root-span vs chunk encoding by `asyncId` and
hand the message to `stream.Send`.  A successful result is the message
that is transmitted (paired with the span as mutated by encoding); an
error result transmits nothing. -/
def spanStream.sendSpan (stream : Option Unit) (sp : span) :
    Except GrpcError (PSpanMessage × span) :=
  match stream with
  | none => .error ⟨.Unavailable, "span stream is nil"⟩
  | some _ =>
    if sp.asyncId = 0 then .ok (makePSpan sp) else .ok (makePSpanChunk sp)

/-- Observe the shape of a `sendSpan` outcome: `some true` when a root
span message is transmitted, `some false` when a span chunk is, `none`
when nothing is transmitted. -/
def sentShape (r : Except GrpcError (PSpanMessage × span)) : Option Bool :=
  match r with
  | .ok (.span _, _) => some true
  | .ok (.spanChunk _, _) => some false
  | .error _ => none

/-- The (field-less) `PPing` message. -/
structure PPing where
  deriving DecidableEq, Repr

/-- `pingStream.sendPing`: fail fast with `Unavailable` on a nil stream
handle, otherwise transmit the ping message. -/
def pingStream.sendPing (stream : Option Unit) : Except GrpcError PPing :=
  match stream with
  | none => .error ⟨.Unavailable, "ping stream is nil"⟩
  | some _ => .ok {}

/-! ## Active-span registry and stats aggregator -/

/-- The 4-bucket active-span histogram accumulator, modelling the
source's `activeSpanCount := []int32{0, 0, 0, 0}` (index i ↦ field bi). -/
structure ActiveSpanCounts where
  b0 : Int
  b1 : Int
  b2 : Int
  b3 : Int
  deriving DecidableEq, Repr

/-- The `[]int32` value the histogram is carried as. -/
def ActiveSpanCounts.toList (c : ActiveSpanCounts) : List Int :=
  [c.b0, c.b1, c.b2, c.b3]

/-- One iteration of the registry `Range` loop body: bucket an age `d`
(in seconds) into `<1`, `[1,3)`, `[3,5)` or `≥5` and bump that count. -/
def bucketIncr (c : ActiveSpanCounts) (d : ℚ) : ActiveSpanCounts :=
  if d < 1 then { c with b0 := c.b0 + 1 }
  else if d < 3 then { c with b1 := c.b1 + 1 }
  else if d < 5 then { c with b2 := c.b2 + 1 }
  else { c with b3 := c.b3 + 1 }

/-- `getActiveSpanCount(now)`: the registry (`activeSpan` sync.Map,
spanId ↦ start time) is modelled as an association list in some
iteration order; each entry's age `now.Sub(start).Seconds()` is
bucketed.  (`getStats` inlines this identical loop.) -/
def getActiveSpanCount (reg : List (Int × Int)) (now : Int) : ActiveSpanCounts :=
  reg.foldl (fun c kv => bucketIncr c (nsToSeconds (now - kv.2))) ⟨0, 0, 0, 0⟩

/-- The lock-guarded mutable counter block of the stats aggregator
(package-level vars in the source), plus `lastCollectTime`. -/
structure statsState where
  accResponseTime : Int
  requestCount : Int
  maxResponseTime : Int
  sampleNew : Int
  sampleCont : Int
  unsampleNew : Int
  unsampleCont : Int
  skipNew : Int
  skipCont : Int
  lastCollectTime : Int
  deriving DecidableEq, Repr

/-- Values `getStats` obtains from the OS / runtime collaborators
(`Getrusage`, `ReadMemStats`, `NumGoroutine`); per the spec these
retrieval primitives are external, only their aggregation is modelled.
`gcNum`/`gcTime` stand for the deltas the source computes against
`lastMemStats`. -/
structure osReadings where
  cpuUserTime : ℚ
  cpuSysTime : ℚ
  goroutineNum : Int
  heapAlloc : Int
  heapMax : Int
  nonHeapAlloc : Int
  nonHeapMax : Int
  gcNum : Int
  gcTime : Int
  deriving DecidableEq, Repr

/-- The `inspectorStats` snapshot record. -/
structure inspectorStats where
  sampleTime : Int
  cpuUserTime : ℚ
  cpuSysTime : ℚ
  goroutineNum : Int
  heapAlloc : Int
  heapMax : Int
  nonHeapAlloc : Int
  nonHeapMax : Int
  gcNum : Int
  gcTime : Int
  responseAvg : Int
  responseMax : Int
  sampleNew : Int
  sampleCont : Int
  unSampleNew : Int
  unSampleCont : Int
  skipNew : Int
  skipCont : Int
  activeSpan : ActiveSpanCounts
  deriving DecidableEq, Repr

/-- `calcResponseAvg()`: guarded average; the division only runs when
`requestCount > 0` (a `none` result would be a division-by-zero
panic). -/
def calcResponseAvg (accResponseTime requestCount : Int) : Option Int :=
  if requestCount > 0 then goDiv accResponseTime requestCount else some 0

/-- `resetResponseTime()`: zero the nine accumulated counters (the
source sets `lastCollectTime` separately, just before calling this). -/
def resetResponseTime (s : statsState) : statsState :=
  { s with
    accResponseTime := 0, requestCount := 0, maxResponseTime := 0
    sampleNew := 0, unsampleNew := 0, sampleCont := 0, unsampleCont := 0
    skipNew := 0, skipCont := 0 }

/-- `collectResponseTime(resTime)`. -/
def collectResponseTime (s : statsState) (resTime : Int) : statsState :=
  { s with
    accResponseTime := s.accResponseTime + resTime
    requestCount := s.requestCount + 1
    maxResponseTime := if s.maxResponseTime < resTime then resTime else s.maxResponseTime }

/-- `getStats()`: build an `inspectorStats` snapshot at time `now` and
reset the counters.  `dur := now.Sub(lastCollectTime)`; each of the six
sampling counters is divided by `int64(dur.Seconds())` with Go integer
division, which panics (`none`) when fewer than a full second has
elapsed.  On success the new state has all counters zeroed and
`lastCollectTime = now`. -/
def getStats (s : statsState) (os : osReadings) (reg : List (Int × Int)) (now : Int) :
    Option (inspectorStats × statsState) := do
  let dsec := ratTrunc (nsToSeconds (now - s.lastCollectTime))
  let avg ← calcResponseAvg s.accResponseTime s.requestCount
  let sn ← goDiv s.sampleNew dsec
  let sc ← goDiv s.sampleCont dsec
  let un ← goDiv s.unsampleNew dsec
  let uc ← goDiv s.unsampleCont dsec
  let kn ← goDiv s.skipNew dsec
  let kc ← goDiv s.skipCont dsec
  let stats : inspectorStats :=
    { sampleTime := now
      cpuUserTime := os.cpuUserTime
      cpuSysTime := os.cpuSysTime
      goroutineNum := os.goroutineNum
      heapAlloc := os.heapAlloc
      heapMax := os.heapMax
      nonHeapAlloc := os.nonHeapAlloc
      nonHeapMax := os.nonHeapMax
      gcNum := os.gcNum
      gcTime := os.gcTime
      responseAvg := avg
      responseMax := s.maxResponseTime
      sampleNew := sn
      sampleCont := sc
      unSampleNew := un
      unSampleCont := uc
      skipNew := kn
      skipCont := kc
      activeSpan := getActiveSpanCount reg now }
  pure (stats, resetResponseTime { s with lastCollectTime := now })

/-! ## Stat wire messages -/

structure PJvmGc where
  type : Int
  jvmMemoryHeapUsed : Int
  jvmMemoryHeapMax : Int
  jvmMemoryNonHeapUsed : Int
  jvmMemoryNonHeapMax : Int
  jvmGcOldCount : Int
  jvmGcOldTime : Int
  jvmGcDetailed : Option Unit
  deriving DecidableEq, Repr

structure PCpuLoad where
  jvmCpuLoad : ℚ
  systemCpuLoad : ℚ
  deriving DecidableEq, Repr

structure PTransaction where
  sampledNewCount : Int
  sampledContinuationCount : Int
  unsampledNewCount : Int
  unsampledContinuationCount : Int
  skippedNewCount : Int
  skippedContinuationCount : Int
  deriving DecidableEq, Repr

structure PActiveTraceHistogram where
  version : Int
  histogramSchemaType : Int
  activeTraceCount : List Int
  deriving DecidableEq, Repr

structure PActiveTrace where
  histogram : PActiveTraceHistogram
  deriving DecidableEq, Repr

structure PResponseTime where
  avg : Int
  max : Int
  deriving DecidableEq, Repr

structure PAgentStat where
  timestamp : Int
  collectInterval : Int
  gc : PJvmGc
  cpuLoad : PCpuLoad
  transaction : PTransaction
  activeTrace : PActiveTrace
  dataSourceList : Option Unit
  responseTime : PResponseTime
  deadlock : Option Unit
  fileDescriptor : Option Unit
  directBuffer : Option Unit
  metadata : String
  deriving DecidableEq, Repr

/-- The stat wire message (the code only ever builds the
`AgentStatBatch` variant of the oneof). -/
inductive PStatMessage where
  | agentStatBatch (agentStat : List PAgentStat)
  deriving DecidableEq, Repr

/-- `makePAgentStat`: encode one `inspectorStats` sample. -/
def makePAgentStat (stat : inspectorStats) : PAgentStat :=
  { timestamp := unixMilli stat.sampleTime
    collectInterval := 5000
    gc :=
      { type := 1
        jvmMemoryHeapUsed := stat.heapAlloc
        jvmMemoryHeapMax := stat.heapMax
        jvmMemoryNonHeapUsed := stat.nonHeapAlloc
        jvmMemoryNonHeapMax := stat.nonHeapAlloc + 1000
        jvmGcOldCount := stat.gcNum
        jvmGcOldTime := stat.gcTime
        jvmGcDetailed := none }
    cpuLoad := { jvmCpuLoad := stat.cpuUserTime, systemCpuLoad := stat.cpuSysTime }
    transaction :=
      { sampledNewCount := stat.sampleNew
        sampledContinuationCount := stat.sampleCont
        unsampledNewCount := stat.unSampleNew
        unsampledContinuationCount := stat.unSampleCont
        skippedNewCount := stat.skipNew
        skippedContinuationCount := stat.skipCont }
    activeTrace :=
      { histogram :=
          { version := 1
            histogramSchemaType := 2
            activeTraceCount := stat.activeSpan.toList } }
    dataSourceList := none
    responseTime := { avg := stat.responseAvg, max := stat.responseMax }
    deadlock := none
    fileDescriptor := none
    directBuffer := none
    metadata := "" }

/-- `statStream.sendStats`: fail fast with `Unavailable` on a nil stream
handle, otherwise encode the batch and transmit it. -/
def statStream.sendStats (stream : Option Unit) (stats : List inspectorStats) :
    Except GrpcError PStatMessage :=
  match stream with
  | none => .error ⟨.Unavailable, "stat stream is nil"⟩
  | some _ => .ok (.agentStatBatch (stats.map makePAgentStat))

/-! ## Backoff

`backOffSleep(attempt)` computes, in float64 nanoseconds,
`dur = min(60s, 1s * 2^attempt)` and sleeps
`time.Duration(rand.Float64()*(dur-base) + base)`.  All of these float
computations are exact (1e9 * 2^n is exactly representable well beyond
attempt 99, and the jitter expression cannot round past its exact
bounds), so they are modelled over `ℚ`, with the random draw
`rand.Float64() ∈ [0,1)` an explicit parameter. -/

/-- `base := float64(1 * time.Second)`. -/
def backOffBase : ℚ := 1000000000

/-- `max := float64(60 * time.Second)`. -/
def backOffMax : ℚ := 60000000000

/-- The capped exponential delay `dur` computed before jitter. -/
def backOffDur (attempt : ℕ) : ℚ :=
  if backOffBase * 2 ^ attempt > backOffMax then backOffMax
  else backOffBase * 2 ^ attempt

/-- The jittered delay `rand.Float64()*(dur-base) + base`, as the exact
rational value of the float expression's bound. -/
def backOffJitter (attempt : ℕ) (r : ℚ) : ℚ :=
  r * (backOffDur attempt - backOffBase) + backOffBase

/-- The nanosecond count actually slept:
`time.Duration(jitter)` truncates the float toward zero. -/
def backOffSleepNs (attempt : ℕ) (r : ℚ) : Int :=
  ratTrunc (backOffJitter attempt r)

/-! ## Stream-creation retry loops

`newPingStreamWithRetry`, `newSpanStreamWithRetry`,
`newStatStreamWithRetry` and `newCommandStreamWithRetry` share one loop
body letter for letter: `for n := 1; n < 100; n++ { if !enable { break };
s := open(); if s.stream != nil { return s }; backOffSleep(n) }` followed
by `return (nil stream)`.  The loop is modelled once, parametrised by the
enabled-flag trace `enable` (its value when iteration `n` begins) and
the per-iteration open outcome `tryOpen` (`none` = the open failed and
produced a nil handle).  Besides the resulting stream handle the model
returns the list of iteration numbers at which an open was attempted. -/

def streamRetryFrom {S : Type} (enable : ℕ → Bool) (tryOpen : ℕ → Option S) :
    ℕ → Option S × List ℕ
  | n =>
    if h : 100 ≤ n then (none, [])
    else if ¬ enable n then (none, [])
    else
      match tryOpen n with
      | some s => (some s, [n])
      | none =>
        let p := streamRetryFrom enable tryOpen (n + 1)
        (p.1, n :: p.2)
  termination_by n => 100 - n
  decreasing_by omega

/-- `agentGrpc.newPingStreamWithRetry`. -/
def newPingStreamWithRetry {S : Type} (enable : ℕ → Bool) (tryOpen : ℕ → Option S) :
    Option S × List ℕ :=
  streamRetryFrom enable tryOpen 1

/-- `spanGrpc.newSpanStreamWithRetry`. -/
def newSpanStreamWithRetry {S : Type} (enable : ℕ → Bool) (tryOpen : ℕ → Option S) :
    Option S × List ℕ :=
  streamRetryFrom enable tryOpen 1

/-- `statGrpc.newStatStreamWithRetry`. -/
def newStatStreamWithRetry {S : Type} (enable : ℕ → Bool) (tryOpen : ℕ → Option S) :
    Option S × List ℕ :=
  streamRetryFrom enable tryOpen 1

/-- `cmdGrpc.newCommandStreamWithRetry`. -/
def newCommandStreamWithRetry {S : Type} (enable : ℕ → Bool) (tryOpen : ℕ → Option S) :
    Option S × List ℕ :=
  streamRetryFrom enable tryOpen 1

/-! ## Goroutine dump encoding -/

/-- A snapshot entry for one goroutine, with the fields the encoders
read (`id`, `header`, `trace`, `metas[MetaState]`; the struct is
declared outside the given sources). -/
structure Goroutine where
  id : Int
  header : String
  trace : String
  state : String
  deriving DecidableEq, Repr

/-- The goroutine snapshot. -/
structure GoroutineDump where
  goroutines : List Goroutine
  deriving DecidableEq, Repr

/-- Modelled from the spec: `GoroutineDump.Search(name)` — the method is
declared outside the given sources; per the spec, named threads are
"found by exact lookup in the snapshot", so it returns the first
goroutine whose name equals `name` (nil when none matches). -/
def GoroutineDump.Search (dump : GoroutineDump) (name : String) : Option Goroutine :=
  dump.goroutines.find? (fun g => g.header = name)

/-- The coarse wire thread-state vocabulary. -/
inductive PThreadState where
  | RUNNABLE
  | WAITING
  | BLOCKED
  | UNKNOWN
  deriving DecidableEq, Repr

/-- `goRoutineState`: map the scheduler-reported state string to the
coarse classification; unrecognized states map to UNKNOWN. -/
def goRoutineState (g : Goroutine) : PThreadState :=
  if g.state = "running" then .RUNNABLE
  else if g.state = "select" then .WAITING
  else if g.state = "IO wait" then .WAITING
  else if g.state = "chan receive" then .WAITING
  else if g.state = "sleep" then .BLOCKED
  else .UNKNOWN

structure PThreadDump where
  threadName : String
  threadId : Int
  blockedTime : Int
  blockedCount : Int
  waitedTime : Int
  waitedCount : Int
  lockName : String
  lockOwnerId : Int
  lockOwnerName : String
  inNative : Bool
  suspended : Bool
  threadState : PThreadState
  stackTrace : List String
  deriving DecidableEq, Repr

structure PActiveThreadDump where
  startTime : Int
  localTraceId : Int
  threadDump : PThreadDump
  sampled : Bool
  transactionId : String
  entryPoint : String
  deriving DecidableEq, Repr

structure PThreadLightDump where
  threadName : String
  threadId : Int
  threadState : PThreadState
  deriving DecidableEq, Repr

structure PActiveThreadLightDump where
  startTime : Int
  localTraceId : Int
  threadDump : PThreadLightDump
  sampled : Bool
  transactionId : String
  entryPoint : String
  deriving DecidableEq, Repr

/-- `makePActiveThreadDump`: encode one goroutine (the source stamps
`time.Now()` as `StartTime`; the clock reading is the explicit `now`
parameter here). -/
def makePActiveThreadDump (now : Int) (g : Goroutine) : PActiveThreadDump :=
  { startTime := unixMilli now
    localTraceId := 0
    threadDump :=
      { threadName := g.header
        threadId := g.id
        blockedTime := 0
        blockedCount := 0
        waitedTime := 0
        waitedCount := 0
        lockName := ""
        lockOwnerId := 0
        lockOwnerName := ""
        inNative := false
        suspended := false
        threadState := goRoutineState g
        stackTrace := [g.trace] }
    sampled := false
    transactionId := ""
    entryPoint := "" }

/-- The `for _, tn := range threadName { g := dump.Search(tn); if g != nil
{ selected = append(selected, g) } }` selection loop. -/
def selectByName (dump : GoroutineDump) (threadName : List String) : List Goroutine :=
  threadName.foldl
    (fun selected tn =>
      match dump.Search tn with
      | some g => selected ++ [g]
      | none => selected)
    []

/-- The counted output loop `for i := 0; i < limit && i < len(gs); i++`,
appending the encoding of each visited element. -/
def dumpTakeLoop {A B : Type} (mk : A → B) (gs : List A) (limit : Int) : List B :=
  match gs with
  | [] => []
  | g :: rest => if limit ≤ 0 then [] else mk g :: dumpTakeLoop mk rest (limit - 1)

/-- `makePActiveThreadDumpList`: a limit below 1 defaults to the full
snapshot size; threads are selected by exact name lookup in filter-list
order, then at most `limit` of them are encoded.  (`localId` is accepted
and ignored, as in the source.) -/
def makePActiveThreadDumpList (dump : GoroutineDump) (limit : Int)
    (threadName : List String) (localId : List Int) (now : Int) :
    List PActiveThreadDump :=
  let _ := localId
  let limit := if limit < 1 then (dump.goroutines.length : Int) else limit
  let selected := selectByName dump threadName
  dumpTakeLoop (makePActiveThreadDump now) selected limit

/-- `makePActiveThreadLightDump`. -/
def makePActiveThreadLightDump (now : Int) (g : Goroutine) : PActiveThreadLightDump :=
  { startTime := unixMilli now
    localTraceId := 0
    threadDump :=
      { threadName := g.header
        threadId := g.id
        threadState := goRoutineState g }
    sampled := false
    transactionId := ""
    entryPoint := "" }

/-- `makePActiveThreadLightDumpList`: no name filter; iterate the
snapshot's native order up to the (defaulted) limit. -/
def makePActiveThreadLightDumpList (dump : GoroutineDump) (limit : Int) (now : Int) :
    List PActiveThreadLightDump :=
  let limit := if limit < 1 then (dump.goroutines.length : Int) else limit
  dumpTakeLoop (makePActiveThreadLightDump now) dump.goroutines limit

/-! ## Theorems -/

/-- C1: For every span submitted to the span channel's send operation
while a live stream exists, a span with `asyncId == 0` is encoded and
transmitted as a root-span wire message, and a span with any non-zero
`asyncId` (including the boundary value 1) as a span-chunk wire
message. -/
theorem sendSpan_discriminates_on_asyncId (u : Unit) (sp : span) :
    sentShape (spanStream.sendSpan (some u) sp) = some (decide (sp.asyncId = 0)) := by
  by_cases h : sp.asyncId = 0 <;>
    simp [spanStream.sendSpan, sentShape, makePSpan, makePSpanChunk, h]

/-- C2: Sending on the ping, span, or stat channel while that channel's
stream handle is nil immediately returns an error carrying the
`Unavailable` condition; the result is an error, so nothing is
transmitted (and the model functions are total, so there is no blocking
or panic). -/
theorem nil_stream_sends_fail_unavailable (sp : span) (stats : List inspectorStats) :
    pingStream.sendPing none = .error ⟨.Unavailable, "ping stream is nil"⟩ ∧
    spanStream.sendSpan none sp = .error ⟨.Unavailable, "span stream is nil"⟩ ∧
    statStream.sendStats none stats = .error ⟨.Unavailable, "stat stream is nil"⟩ :=
  ⟨rfl, rfl, rfl⟩

/-- C6: With a zero accumulated request count the snapshot's average
response time is 0, for any accumulated sum; and for every state the
average computation succeeds (`isSome`), i.e. it never divides by
zero. -/
theorem calcResponseAvg_safe (acc cnt : Int) :
    calcResponseAvg acc 0 = some 0 ∧ (calcResponseAvg acc cnt).isSome = true := by
  constructor
  · rfl
  · unfold calcResponseAvg goDiv
    split_ifs with h1 h2
    · omega
    · rfl
    · rfl

/-- C10: Every encoded stat sample carries
`JvmMemoryNonHeapMax = nonHeapAlloc + 1000`; the sample's own
`nonHeapMax` field never influences the wire message; and the encoded
collect interval is the constant 5000. -/
theorem makePAgentStat_nonHeapMax_and_interval (s : inspectorStats) (m : Int) :
    (makePAgentStat s).gc.jvmMemoryNonHeapMax = s.nonHeapAlloc + 1000 ∧
    (makePAgentStat s).collectInterval = 5000 ∧
    makePAgentStat { s with nonHeapMax := m } = makePAgentStat s :=
  ⟨rfl, rfl, rfl⟩

/-- The total of the four histogram buckets. -/
def ActiveSpanCounts.total (c : ActiveSpanCounts) : Int :=
  c.b0 + c.b1 + c.b2 + c.b3

theorem bucketIncr_total (c : ActiveSpanCounts) (d : ℚ) :
    (bucketIncr c d).total = c.total + 1 := by
  unfold bucketIncr ActiveSpanCounts.total
  split_ifs <;> simp <;> ring

theorem bucketFold_total (reg : List (Int × Int)) (now : Int) (c : ActiveSpanCounts) :
    (reg.foldl (fun c kv => bucketIncr c (nsToSeconds (now - kv.2))) c).total =
      c.total + reg.length := by
  induction reg generalizing c with
  | nil => simp
  | cons kv rest ih =>
    rw [List.foldl_cons, ih, bucketIncr_total, List.length_cons]
    push_cast
    ring

/-- C4: For every set of registered active spans and every query time,
the 4-bucket histogram's counts sum exactly to the number of registered
spans; and the buckets are half-open: a span of age exactly 1s falls in
bucket `[1s,3s)`, exactly 3s in `[3s,5s)`, exactly 5s in `≥5s`. -/
theorem getActiveSpanCount_total_and_boundaries
    (reg : List (Int × Int)) (now : Int) (i t : Int) :
    (getActiveSpanCount reg now).total = reg.length ∧
    getActiveSpanCount [(i, t)] (t + 1000000000) = ⟨0, 1, 0, 0⟩ ∧
    getActiveSpanCount [(i, t)] (t + 3000000000) = ⟨0, 0, 1, 0⟩ ∧
    getActiveSpanCount [(i, t)] (t + 5000000000) = ⟨0, 0, 0, 1⟩ := by
  refine ⟨?_, ?_, ?_, ?_⟩
  · rw [getActiveSpanCount, bucketFold_total]
    simp [ActiveSpanCounts.total]
  all_goals
    simp only [getActiveSpanCount, List.foldl_cons, List.foldl_nil, add_sub_cancel_left]
    norm_num [nsToSeconds, bucketIncr]

theorem backOffDur_le_max (a : ℕ) : backOffDur a ≤ backOffMax := by
  unfold backOffDur
  split_ifs with h
  · exact le_refl _
  · exact le_of_not_lt h

theorem backOffBase_le_dur (a : ℕ) : backOffBase ≤ backOffDur a := by
  have h2 : (1 : ℚ) ≤ 2 ^ a := by
    calc (1 : ℚ) = 1 ^ a := (one_pow a).symm
    _ ≤ 2 ^ a := by
      apply pow_le_pow_left₀ <;> norm_num
  unfold backOffDur backOffBase backOffMax
  split_ifs with h
  · norm_num
  · nlinarith

theorem backOffDur_mono {a b : ℕ} (hab : a ≤ b) : backOffDur a ≤ backOffDur b := by
  have hpow : (2 : ℚ) ^ a ≤ 2 ^ b := by
    apply pow_le_pow_right₀ _ hab
    norm_num
  have hmul : backOffBase * 2 ^ a ≤ backOffBase * 2 ^ b := by
    apply mul_le_mul_of_nonneg_left hpow
    unfold backOffBase
    norm_num
  unfold backOffDur
  split_ifs with h1 h2
  · exact le_refl _
  · linarith
  · linarith
  · exact hmul

/-- `time.Duration(x)` truncation agrees with the floor on the
nonnegative floats the backoff and stats code converts. -/
theorem ratTrunc_eq_floor_of_nonneg (q : ℚ) (h : 0 ≤ q) : ratTrunc q = ⌊q⌋ := by
  unfold ratTrunc
  rw [Int.tdiv_eq_ediv (Rat.num_nonneg.mpr h) (by exact_mod_cast q.den_pos.le), Rat.floor_def]

/-- C3: The backoff delay computed before sleeping is monotonically
non-decreasing in the attempt number up to the 60-second cap, and for
every random draw `r ∈ [0,1)` the jittered delay — and the truncated
nanosecond duration actually slept — lies within
`[base = 1s, cap = 60s]`. -/
theorem backOff_mono_and_bounded (a b : ℕ) (r : ℚ)
    (hab : a ≤ b) (hr0 : 0 ≤ r) (hr1 : r < 1) :
    backOffDur a ≤ backOffDur b ∧
    backOffBase ≤ backOffJitter a r ∧ backOffJitter a r ≤ backOffMax ∧
    (1000000000 : Int) ≤ backOffSleepNs a r ∧ backOffSleepNs a r ≤ 60000000000 := by
  have hbd := backOffBase_le_dur a
  have hdm := backOffDur_le_max a
  have hlow : backOffBase ≤ backOffJitter a r := by
    unfold backOffJitter
    nlinarith [mul_nonneg hr0 (sub_nonneg.mpr hbd)]
  have hhigh : backOffJitter a r ≤ backOffMax := by
    unfold backOffJitter
    nlinarith [mul_le_mul_of_nonneg_right hr1.le (sub_nonneg.mpr hbd)]
  have hj0 : (0 : ℚ) ≤ backOffJitter a r := by
    have : (0 : ℚ) ≤ backOffBase := by unfold backOffBase; norm_num
    linarith
  refine ⟨backOffDur_mono hab, hlow, hhigh, ?_, ?_⟩
  · rw [backOffSleepNs, ratTrunc_eq_floor_of_nonneg _ hj0]
    apply Int.le_floor.mpr
    calc ((1000000000 : Int) : ℚ) = backOffBase := by unfold backOffBase; norm_num
    _ ≤ backOffJitter a r := hlow
  · rw [backOffSleepNs, ratTrunc_eq_floor_of_nonneg _ hj0]
    calc ⌊backOffJitter a r⌋ ≤ ⌊backOffMax⌋ := Int.floor_le_floor hhigh
    _ = 60000000000 := by unfold backOffMax; norm_num [Int.floor_eq_iff]

/-- Witness for C3 at attempt numbers 2 ≤ 3 and random draw 1/2. -/
theorem backOff_mono_and_bounded_witness :
    backOffDur 2 ≤ backOffDur 3 ∧
    backOffBase ≤ backOffJitter 2 (1 / 2) ∧ backOffJitter 2 (1 / 2) ≤ backOffMax ∧
    (1000000000 : Int) ≤ backOffSleepNs 2 (1 / 2) ∧
    backOffSleepNs 2 (1 / 2) ≤ 60000000000 :=
  backOff_mono_and_bounded 2 3 (1 / 2) (by norm_num) (by norm_num) (by norm_num)

theorem selectByName_eq_filterMap (dump : GoroutineDump) (threadName : List String) :
    selectByName dump threadName = threadName.filterMap dump.Search := by
  have H : ∀ (tns : List String) (acc : List Goroutine),
      tns.foldl
        (fun selected tn =>
          match dump.Search tn with
          | some g => selected ++ [g]
          | none => selected)
        acc = acc ++ tns.filterMap dump.Search := by
    intro tns
    induction tns with
    | nil => intro acc; simp
    | cons tn rest ih =>
      intro acc
      cases h : dump.Search tn <;>
        simp [List.foldl_cons, List.filterMap_cons, h, ih]
  simpa using H threadName []

theorem dumpTakeLoop_eq_take_map {A B : Type} (mk : A → B) (gs : List A) (limit : Int) :
    dumpTakeLoop mk gs limit = (gs.take limit.toNat).map mk := by
  induction gs generalizing limit with
  | nil => simp [dumpTakeLoop]
  | cons g rest ih =>
    unfold dumpTakeLoop
    split_ifs with h
    · have h0 : limit.toNat = 0 := by omega
      simp [h0]
    · have h1 : limit.toNat = (limit - 1).toNat + 1 := by omega
      rw [h1, List.take_succ_cons, List.map_cons, ih]

/-- C8: The full active-thread dump selects threads by exact name lookup
iterating the filter list in its order (skipping names not found), a
limit below 1 defaults to the full snapshot size, and the output has
`min(effective limit, number of matched threads)` entries; the light
dump instead iterates the snapshot's native order up to the effective
limit. -/
theorem threadDump_filter_and_limit (dump : GoroutineDump) (limit : Int)
    (threadName : List String) (localId : List Int) (now : Int) :
    makePActiveThreadDumpList dump limit threadName localId now =
      ((threadName.filterMap dump.Search).take
        (if limit < 1 then dump.goroutines.length else limit.toNat)).map
        (makePActiveThreadDump now) ∧
    (makePActiveThreadDumpList dump limit threadName localId now).length =
      min (if limit < 1 then dump.goroutines.length else limit.toNat)
        (threadName.filterMap dump.Search).length ∧
    makePActiveThreadLightDumpList dump limit now =
      (dump.goroutines.take
        (if limit < 1 then dump.goroutines.length else limit.toNat)).map
        (makePActiveThreadLightDump now) ∧
    (makePActiveThreadLightDumpList dump limit now).length =
      min (if limit < 1 then dump.goroutines.length else limit.toNat)
        dump.goroutines.length := by
  have htoNat :
      (if limit < 1 then (dump.goroutines.length : Int) else limit).toNat =
        if limit < 1 then dump.goroutines.length else limit.toNat := by
    split_ifs <;> simp
  have hfull :
      makePActiveThreadDumpList dump limit threadName localId now =
        ((threadName.filterMap dump.Search).take
          (if limit < 1 then dump.goroutines.length else limit.toNat)).map
          (makePActiveThreadDump now) := by
    unfold makePActiveThreadDumpList
    rw [selectByName_eq_filterMap, dumpTakeLoop_eq_take_map, htoNat]
  have hlight :
      makePActiveThreadLightDumpList dump limit now =
        (dump.goroutines.take
          (if limit < 1 then dump.goroutines.length else limit.toNat)).map
          (makePActiveThreadLightDump now) := by
    unfold makePActiveThreadLightDumpList
    rw [dumpTakeLoop_eq_take_map, htoNat]
  refine ⟨hfull, ?_, hlight, ?_⟩
  · rw [hfull, List.length_map, List.length_take]
  · rw [hlight, List.length_map, List.length_take]

/-- C7 (amended): Encoding a span mutates exactly the annotation lists
and nothing else: root-span encoding appends the operation-name
annotation (key 12) to the span's own annotation list; both encodings
append the operation-name annotation to a span event's list exactly
when the event's apiId is 0 and its operation name is non-empty; every
other field of the span and of its events is unchanged. -/
theorem encode_mutates_only_annotation_lists (sp : span) (e : spanEvent) :
    (makePSpan sp).2 =
      { sp with
        annotations := sp.annotations.AppendString 12 sp.operationName
        spanEvents := sp.spanEvents.map (fun ev => (makePSpanEvent ev).2) } ∧
    (makePSpanChunk sp).2 =
      { sp with spanEvents := sp.spanEvents.map (fun ev => (makePSpanEvent ev).2) } ∧
    (makePSpanEvent e).2 =
      (if e.apiId = 0 ∧ e.operationName ≠ "" then
        { e with annotations := e.annotations.AppendString 12 e.operationName }
      else e) := by
  refine ⟨?_, ?_, ?_⟩
  · simp only [makePSpan, List.map_map]
    rfl
  · simp only [makePSpanChunk, List.map_map]
    rfl
  · simp only [makePSpanEvent]

/-- C7 counterexample: encoding a concrete span (operation name "op",
empty annotation list, no events) does not leave the span unchanged —
the root-span encoder appends the operation-name annotation to it. -/
theorem makePSpan_mutates_span_counterexample :
    (makePSpan
        ⟨⟨"agent", 0, 0⟩, 0, 0, 0, 0, 0, "", "", "", 0, 0, "op", ⟨[]⟩, [], 0, "", 0,
          "", 0, 0, 0, 0⟩).2 ≠
      ⟨⟨"agent", 0, 0⟩, 0, 0, 0, 0, 0, "", "", "", 0, 0, "op", ⟨[]⟩, [], 0, "", 0,
        "", 0, 0, 0, 0⟩ := by
  decide

theorem streamRetry_attempts_only_enabled {S : Type} (enable : ℕ → Bool)
    (tryOpen : ℕ → Option S) :
    ∀ m k, k ∈ (streamRetryFrom enable tryOpen m).2 → enable k = true := by
  have H : ∀ (fuel m k : ℕ), 100 - m ≤ fuel →
      k ∈ (streamRetryFrom enable tryOpen m).2 → enable k = true := by
    intro fuel
    induction fuel with
    | zero =>
      intro m k hf hk
      rw [streamRetryFrom, dif_pos (by omega : 100 ≤ m)] at hk
      simp at hk
    | succ f ih =>
      intro m k hf hk
      rw [streamRetryFrom] at hk
      by_cases h100 : 100 ≤ m
      · rw [dif_pos h100] at hk
        simp at hk
      · rw [dif_neg h100] at hk
        by_cases he : enable m
        · rw [if_neg (by simp [he])] at hk
          cases ho : tryOpen m with
          | some s =>
            simp [ho] at hk
            simpa [hk] using he
          | none =>
            simp [ho] at hk
            rcases hk with rfl | hk
            · exact he
            · exact ih (m + 1) k (by omega) hk
        · rw [if_pos (by simpa using he)] at hk
          simp at hk
  intro m k
  exact H 100 m k (by omega)

/-- C9: For every stream-creation retry loop (the ping, span, stat and
command `WithRetry` variants all run `streamRetryFrom … 1`): if the
agent's enabled flag is false when an iteration begins, the loop exits
at once returning a nil stream handle and making no further open
attempt; and every open attempt the loop ever makes happens in an
iteration at whose start the agent was enabled. -/
theorem streamRetry_disabled_gives_nil_stream {S : Type} (enable : ℕ → Bool)
    (tryOpen : ℕ → Option S) (n : ℕ) (hdis : enable n = false) :
    streamRetryFrom enable tryOpen n = (none, []) ∧
    ∀ m k, k ∈ (streamRetryFrom enable tryOpen m).2 → enable k = true := by
  refine ⟨?_, streamRetry_attempts_only_enabled enable tryOpen⟩
  rw [streamRetryFrom]
  by_cases h100 : 100 ≤ n
  · rw [dif_pos h100]
  · rw [dif_neg h100, if_pos (by simp [hdis])]

/-- Witness for C9: with the agent disabled from the first iteration,
the retry loop returns a nil stream handle and attempts no open. -/
theorem streamRetry_disabled_witness :
    streamRetryFrom (fun _ => false) (fun _ => (none : Option Unit)) 1 = (none, []) :=
  (streamRetry_disabled_gives_nil_stream (fun _ => false) (fun _ => none) 1 rfl).1

theorem getStats_some_state (s : statsState) (os : osReadings) (reg : List (Int × Int))
    (now : Int) (st : inspectorStats) (s' : statsState)
    (h : getStats s os reg now = some (st, s')) :
    s' = ⟨0, 0, 0, 0, 0, 0, 0, 0, 0, now⟩ := by
  simp only [getStats, bind, Option.bind_eq_some, Option.pure_def, Option.some.injEq,
    Prod.mk.injEq] at h
  obtain ⟨a, -, b, -, c, -, d, -, e2, -, f2, -, g2, -, -, h2⟩ := h
  rw [← h2]
  rfl

/-- C5 (amended): After a successful snapshot, a second snapshot with no
intervening recordings, taken once at least one full second has
elapsed, succeeds and returns all-zero rate fields (sampleNew,
sampleCont, unSampleNew, unSampleCont, skipNew, skipCont). -/
theorem second_snapshot_rates_zero (s : statsState) (os os2 : osReadings)
    (reg reg2 : List (Int × Int)) (now now2 : Int) (st1 : inspectorStats)
    (s1 : statsState)
    (h1 : getStats s os reg now = some (st1, s1))
    (h2 : (1 : ℚ) ≤ nsToSeconds (now2 - now)) :
    ∃ st2 s2, getStats s1 os2 reg2 now2 = some (st2, s2) ∧
      st2.sampleNew = 0 ∧ st2.sampleCont = 0 ∧ st2.unSampleNew = 0 ∧
      st2.unSampleCont = 0 ∧ st2.skipNew = 0 ∧ st2.skipCont = 0 := by
  have hs1 := getStats_some_state s os reg now st1 s1 h1
  subst hs1
  have hq0 : (0 : ℚ) ≤ nsToSeconds (now2 - now) := le_trans (by norm_num) h2
  have hd1 : 1 ≤ ratTrunc (nsToSeconds (now2 - now)) := by
    rw [ratTrunc_eq_floor_of_nonneg _ hq0]
    exact Int.le_floor.mpr (by exact_mod_cast h2)
  have hdne : ratTrunc (nsToSeconds (now2 - now)) ≠ 0 := by omega
  refine ⟨{ sampleTime := now2
            cpuUserTime := os2.cpuUserTime
            cpuSysTime := os2.cpuSysTime
            goroutineNum := os2.goroutineNum
            heapAlloc := os2.heapAlloc
            heapMax := os2.heapMax
            nonHeapAlloc := os2.nonHeapAlloc
            nonHeapMax := os2.nonHeapMax
            gcNum := os2.gcNum
            gcTime := os2.gcTime
            responseAvg := 0
            responseMax := 0
            sampleNew := 0
            sampleCont := 0
            unSampleNew := 0
            unSampleCont := 0
            skipNew := 0
            skipCont := 0
            activeSpan := getActiveSpanCount reg2 now2 },
          ⟨0, 0, 0, 0, 0, 0, 0, 0, 0, now2⟩, ?_, rfl, rfl, rfl, rfl, rfl, rfl⟩
  simp [getStats, calcResponseAvg, goDiv, hdne, Int.zero_tdiv, resetResponseTime]

/-- C5 counterexample: a first snapshot at t = 2s (from lastCollectTime
0) succeeds; a second snapshot only half a second later, with no
intervening recordings, divides the counters by
`int64(dur.Seconds()) = 0` — an integer division-by-zero panic
(modelled `none`) — instead of returning all-zero rate fields. -/
theorem second_snapshot_subsecond_counterexample :
    getStats ⟨0, 0, 0, 0, 0, 0, 0, 0, 0, 0⟩ ⟨0, 0, 0, 0, 0, 0, 0, 0, 0⟩ [] 2000000000 =
      some (⟨2000000000, 0, 0, 0, 0, 0, 0, 0, 0, 0, 0, 0, 0, 0, 0, 0, 0, 0, ⟨0, 0, 0, 0⟩⟩,
        ⟨0, 0, 0, 0, 0, 0, 0, 0, 0, 2000000000⟩) ∧
    getStats ⟨0, 0, 0, 0, 0, 0, 0, 0, 0, 2000000000⟩ ⟨0, 0, 0, 0, 0, 0, 0, 0, 0⟩ []
        2500000000 =
      none := by
  have e1 : ratTrunc (nsToSeconds 2000000000) = 2 := by
    norm_num [ratTrunc, nsToSeconds]
  have e2 : ratTrunc (nsToSeconds 500000000) = 0 := by
    norm_num [ratTrunc, nsToSeconds]
    decide
  constructor
  · simp [getStats, calcResponseAvg, goDiv, resetResponseTime, getActiveSpanCount, e1,
      Int.zero_tdiv]
  · simp [getStats, calcResponseAvg, goDiv, e2]

/-- Witness for C5: concrete snapshots at t = 2s and t = 4s. -/
theorem second_snapshot_rates_zero_witness :
    ∃ st2 s2,
      getStats ⟨0, 0, 0, 0, 0, 0, 0, 0, 0, 2000000000⟩ ⟨0, 0, 0, 0, 0, 0, 0, 0, 0⟩ []
          4000000000 =
        some (st2, s2) ∧
      st2.sampleNew = 0 ∧ st2.sampleCont = 0 ∧ st2.unSampleNew = 0 ∧
      st2.unSampleCont = 0 ∧ st2.skipNew = 0 ∧ st2.skipCont = 0 := by
  have e1 : ratTrunc (nsToSeconds 2000000000) = 2 := by
    norm_num [ratTrunc, nsToSeconds]
  refine second_snapshot_rates_zero ⟨0, 0, 0, 0, 0, 0, 0, 0, 0, 0⟩
    ⟨0, 0, 0, 0, 0, 0, 0, 0, 0⟩ ⟨0, 0, 0, 0, 0, 0, 0, 0, 0⟩ [] [] 2000000000 4000000000
    ⟨2000000000, 0, 0, 0, 0, 0, 0, 0, 0, 0, 0, 0, 0, 0, 0, 0, 0, 0, ⟨0, 0, 0, 0⟩⟩
    ⟨0, 0, 0, 0, 0, 0, 0, 0, 0, 2000000000⟩ ?_ ?_
  · simp [getStats, calcResponseAvg, goDiv, resetResponseTime, getActiveSpanCount, e1,
      Int.zero_tdiv]
  · norm_num [nsToSeconds]
